import Mathlib

/-
Shallow embedding of the analysis endpoint in src/app/api/analyze/route.ts.
JavaScript strings are modelled as lists of characters; the string methods
used by the route (trim, toLowerCase, split on a comma, includes) are
modelled below.  The handler POST is modelled as a pure function of the
environment, the request body field text, and the outcome of each of the
three model calls; it returns the HTTP response together with the list of
inference calls it issued.
-/

namespace AnalyzeRoute

/-- A JavaScript string, modelled as a list of characters. -/
abbrev JStr := List Char

/-- Whitespace characters removed by the JavaScript trim method
(the ASCII ones; the route only ever meets ASCII whitespace). -/
def isWS (c : Char) : Bool :=
  c == ' ' || c == '\t' || c == '\n' || c == '\r' || c == '\x0b' || c == '\x0c'

/-- Model of the JavaScript trim method: drop leading and trailing
whitespace. -/
def jsTrim (s : JStr) : JStr :=
  ((s.dropWhile isWS).reverse.dropWhile isWS).reverse

/-- Model of the JavaScript toLowerCase method (ASCII). -/
def jsToLower (s : JStr) : JStr := s.map Char.toLower

/-- Does the list pr occur at the start of s. -/
def hasPref : JStr → JStr → Bool
  | [], _ => true
  | _ :: _, [] => false
  | a :: pr, b :: s => a == b && hasPref pr s

/-- Does the list sub occur somewhere inside s. -/
def hasSub (sub : JStr) : JStr → Bool
  | [] => hasPref sub []
  | c :: t => hasPref sub (c :: t) || hasSub sub t

/-- Model of the JavaScript includes method: jsIncl s sub is true when
sub occurs inside s. -/
def jsIncl (s sub : JStr) : Bool := hasSub sub s

/-- Model of the JavaScript split method with a one-character separator:
split "a,b" on a comma gives ["a", "b"], split "" gives [""]. -/
def jsSplitChar (sep : Char) : JStr → List JStr
  | [] => [[]]
  | c :: rest =>
    let r := jsSplitChar sep rest
    if c == sep then [] :: r
    else
      match r with
      | [] => [[c]]
      | h :: t => (c :: h) :: t

/-- Model of the JavaScript join method on a list of strings. -/
def jsJoin (sep : JStr) : List JStr → JStr
  | [] => []
  | [x] => x
  | x :: xs => x ++ sep ++ jsJoin sep xs

/-- A JavaScript value, as far as the route inspects one: the request body
field text may be absent, null, a boolean, a number or a string. -/
inductive JSValue where
  | undef : JSValue
  | null : JSValue
  | bool : Bool → JSValue
  | num : Int → JSValue
  | str : JStr → JSValue
deriving DecidableEq, Repr

/-- JavaScript truthiness of a value, as tested by the guard on text. -/
def truthy : JSValue → Bool
  | .undef => false
  | .null => false
  | .bool b => b
  | .num n => !(n == 0)
  | .str s => !(s == [])

/-- One entry of SENTIMENT_MAP: a display label and a styling hint. -/
structure SentimentInfo where
  label : JStr
  color : JStr
deriving DecidableEq, Repr

/-- The SENTIMENT_MAP lookup table of the route: an object keyed by the
lower-cased completion; a key outside the three entries yields undefined,
modelled as none. -/
def SENTIMENT_MAP (key : JStr) : Option SentimentInfo :=
  if key = "positive".data then
    some ⟨"Positive".data, "bg-green-500/10 text-green-500 hover:bg-green-500/20".data⟩
  else if key = "negative".data then
    some ⟨"Negative".data, "bg-red-500/10 text-red-500 hover:bg-red-500/20".data⟩
  else if key = "neutral".data then
    some ⟨"Neutral".data, "bg-blue-500/10 text-blue-500 hover:bg-blue-500/20".data⟩
  else none

/-- The product catalog CLOUDFLARE_PRODUCTS, verbatim from the route. -/
def CLOUDFLARE_PRODUCTS : List JStr :=
  ["AI Gateway".data, "Browser Rendering".data, "Calls".data,
   "Cloudflare for Platforms".data, "Email Routing".data, "Hyperdrive".data,
   "KV".data, "WAF".data, "Pages Gateway".data, "Pub/Sub".data,
   "Pulumi".data, "Queues".data, "Magic Transit".data, "Bot Management".data,
   "Workers".data, "Pages".data, "R2".data, "D1".data, "Images".data,
   "Stream".data, "DNS".data, "SSL/TLS".data, "DDoS Protection".data,
   "Access".data, "Zero Trust".data, "Spectrum".data, "Load Balancing".data,
   "Durable Objects".data, "Tenant".data, "TURN Service".data,
   "Turnstile".data, "Vectorize".data, "Waiting Room".data,
   "Cloudflare Web Analytics".data, "Workers AI".data,
   "Workers Analytics Engine".data, "Workers for Platforms".data,
   "Workflows".data, "Zaraz".data]

/-- The issue taxonomy ISSUE_LABELS, verbatim from the route. -/
def ISSUE_LABELS : List JStr :=
  ["Bug Report".data, "Feature Request".data, "Performance Issue".data,
   "Security Concern".data, "Documentation Need".data,
   "Integration Problem".data, "Configuration Help".data,
   "Billing Question".data, "Service Disruption".data, "API Issue".data,
   "General".data]

/-- The model identifier AI_MODEL. -/
def AI_MODEL : JStr := "@cf/meta/llama-3.1-70b-instruct".data

/-- The decoding configuration AI_CONFIG. -/
structure AIConfig where
  temperature : ℚ
  max_tokens : ℕ
deriving DecidableEq, Repr

/-- AI_CONFIG from the route: deterministic decoding, 150-token budget. -/
def AI_CONFIG : AIConfig := ⟨0, 150⟩

/-- PROMPTS.sentiment, verbatim from the route. -/
def PROMPT_sentiment : JStr :=
  ("You are a sentiment analysis AI specializing in Cloudflare-related feedback. Analyze the given text and determine if it expresses a positive, negative, or neutral sentiment towards Cloudflare\x27s products, services, or the company in general.\n\nGuidelines:\n- Respond with exactly one word: \"positive\", \"negative\", or \"neutral\"\n- \"positive\": User expresses satisfaction, praise, or enthusiasm about Cloudflare\n- \"negative\": User expresses dissatisfaction, criticism, or frustration with Cloudflare\n- \"neutral\": Factual statements, general inquiries, or balanced feedback about Cloudflare\n\nFocus on Cloudflare-specific context and user sentiment. Respond with only one of these three words, nothing else.").data

/-- PROMPTS.products, verbatim from the route, with the catalog joined in. -/
def PROMPT_products : JStr :=
  ("You are a Cloudflare product detection AI assistant. Analyze the text and identify any mentioned Cloudflare products or services from the following list:\n\n").data
  ++ jsJoin ", ".data CLOUDFLARE_PRODUCTS
  ++ ("\n\nGuidelines:\n- Return only product names from the provided list\n- Multiple products may be mentioned\n- If no products are mentioned, respond with \"none\"\n- Separate multiple products with commas\n- Match products even if mentioned with slight variations\n- Do not add any explanation or additional text\n\nExample responses:\n\"WAF, Workers\"\n\"Pages, Hyperdrive, D1\"\n\"R2\"\n\"none\"").data

/-- PROMPTS.issues, verbatim from the route, with the taxonomy joined in. -/
def PROMPT_issues : JStr :=
  ("You are an AI assistant specialized in categorizing feedback into appropriate categories. Categorize the text into the most appropriate category from the following list:\n\n").data
  ++ jsJoin ", ".data ISSUE_LABELS
  ++ ("\n\nGuidelines:\n- Return exactly one issue type from the list above\n- Use exact spelling and capitalization as shown\n- Choose the most relevant category based on the main concern\n- If no clear issue type matches, respond with \"General Question\"\n- Do not add any explanation or additional text\n\nExample responses:\n\"Bug Report\"\n\"General\"\n\"Billing Question\"").data

/-- processProducts from the route: an answer equal (lower-cased, without
trimming) to "none" gives the empty list; otherwise split on commas, trim
each segment and keep the segments whose lower-cased form contains the
lower-cased name of some catalog entry. -/
def processProducts (response : JStr) : List JStr :=
  if jsToLower response = "none".data then []
  else
    ((jsSplitChar ',' response).map jsTrim).filter
      (fun p => CLOUDFLARE_PRODUCTS.any fun cp => jsIncl (jsToLower p) (jsToLower cp))

/-- processIssues from the route: trim the answer; if it equals one of the
issue labels exactly, return it alone, else return the fallback label. -/
def processIssues (response : JStr) : List JStr :=
  if ISSUE_LABELS.any (fun label => label == jsTrim response) then [jsTrim response]
  else ["General Question".data]

/-- The outcome of one call to the injected inference client: either a raw
completion string or a failure carrying a message. -/
inductive CallOutcome where
  | ok : JStr → CallOutcome
  | err : JStr → CallOutcome
deriving DecidableEq, Repr

/-- One call issued to the inference client: the model, the two role-tagged
messages and the gateway identifier, as makeAICall sends them. -/
structure IssuedCall where
  model : JStr
  systemPrompt : JStr
  user : JSValue
  gatewayId : JStr
deriving DecidableEq, Repr

/-- makeAICall from the route: records the call it issues and, on success,
returns the completion trimmed; on failure, propagates the error message. -/
def makeAICall (gatewayId : JStr) (prompt : JStr) (text : JSValue)
    (outcome : CallOutcome) : IssuedCall × Except JStr JStr :=
  (⟨AI_MODEL, prompt, text, gatewayId⟩,
   match outcome with
   | .ok r => .ok (jsTrim r)
   | .err m => .error m)

/-- Promise.all over the three calls: all three results, or a rejection.
Promise.all rejects with whichever promise rejects first in time; the
model takes the first failing call in argument order. -/
def promiseAll3 (a b c : Except JStr JStr) :
    Except JStr (JStr × JStr × JStr) :=
  match a, b, c with
  | .ok x, .ok y, .ok z => .ok (x, y, z)
  | .error m, _, _ => .error m
  | _, .error m, _ => .error m
  | _, _, .error m => .error m

/-- The environment the route reads: whether the AI binding is present and
the gateway identifier (the empty string standing for an unset one). -/
structure Env where
  AI : Bool
  CLOUDFLARE_GATEWAY_ID : JStr
deriving DecidableEq, Repr

/-- The assembled AnalysisResult: the unguarded sentiment lookup (an
undefined value modelled as none), the product list and the issue list. -/
structure AnalysisResult where
  sentiment : Option SentimentInfo
  products : List JStr
  issues : List JStr
deriving DecidableEq, Repr

/-- The HTTP response of the route: a 200 with an AnalysisResult, or an
error body with a status, message and optional details field. -/
inductive Response where
  | okJson : AnalysisResult → Response
  | errJson : ℕ → JStr → Option JStr → Response
deriving DecidableEq, Repr

/-- The POST handler, as a function of the environment, the body field
text and the outcome of each of the three inference calls.  Returns the
response together with the list of inference calls it issued. -/
def POST (env : Env) (text : JSValue)
    (sOut pOut iOut : CallOutcome) : Response × List IssuedCall :=
  if env.AI = false ∨ env.CLOUDFLARE_GATEWAY_ID = [] then
    (.errJson 500 "Failed to analyze text".data
      (some "Required environment variables are not set".data), [])
  else if truthy text = false then
    (.errJson 400 "Text is required".data none, [])
  else
    let sc := makeAICall env.CLOUDFLARE_GATEWAY_ID PROMPT_sentiment text sOut
    let pc := makeAICall env.CLOUDFLARE_GATEWAY_ID PROMPT_products text pOut
    let ic := makeAICall env.CLOUDFLARE_GATEWAY_ID PROMPT_issues text iOut
    let calls := [sc.1, pc.1, ic.1]
    match promiseAll3 sc.2 pc.2 ic.2 with
    | .ok (sR, pR, iR) =>
      (.okJson
        { sentiment := SENTIMENT_MAP (jsToLower sR),
          products := processProducts pR,
          issues := processIssues iR }, calls)
    | .error m =>
      (.errJson 500 "Failed to analyze text".data (some m), calls)

end AnalyzeRoute

namespace AnalyzeRoute

/-- Dropping while a predicate holds is the identity when no element of the
list satisfies the predicate. -/
theorem dropWhile_eq_self_of_all (p : Char → Bool) (s : JStr)
    (h : ∀ c ∈ s, p c = false) : s.dropWhile p = s := by
  cases s with
  | nil => rfl
  | cons c t =>
    rw [List.dropWhile_cons]
    simp [h c (List.mem_cons_self c t)]

/-- Trimming a string with no whitespace characters is the identity. -/
theorem jsTrim_eq_self (s : JStr) (h : ∀ c ∈ s, isWS c = false) :
    jsTrim s = s := by
  unfold jsTrim
  rw [dropWhile_eq_self_of_all isWS s h,
    dropWhile_eq_self_of_all isWS s.reverse
      (fun c hc => h c (List.mem_reverse.mp hc)),
    List.reverse_reverse]

/-- Every element of a list is in its dropWhile residue or satisfies the
dropped predicate. -/
theorem mem_dropWhile_or (p : Char → Bool) (s : JStr) (c : Char)
    (hc : c ∈ s) : c ∈ s.dropWhile p ∨ p c = true := by
  have hsplit := List.takeWhile_append_dropWhile p s
  rw [← hsplit] at hc
  rcases List.mem_append.mp hc with h | h
  · exact Or.inr (List.mem_takeWhile_imp h)
  · exact Or.inl h

/-- Every character of a string survives trimming or is whitespace. -/
theorem mem_jsTrim_or_ws (s : JStr) (c : Char) (hc : c ∈ s) :
    c ∈ jsTrim s ∨ isWS c = true := by
  rcases mem_dropWhile_or isWS s c hc with h | h
  · rcases mem_dropWhile_or isWS (s.dropWhile isWS).reverse c
      (List.mem_reverse.mpr h) with h2 | h2
    · exact Or.inl (by unfold jsTrim; exact List.mem_reverse.mpr h2)
    · exact Or.inr h2
  · exact Or.inr h

/-- Splitting on a separator absent from the string yields the whole
string as the only segment. -/
theorem jsSplitChar_eq_single (sep : Char) (s : JStr)
    (h : ∀ c ∈ s, c ≠ sep) : jsSplitChar sep s = [s] := by
  induction s with
  | nil => rfl
  | cons c t ih =>
    have hc : (c == sep) = false := by
      simp [h c (List.mem_cons_self c t)]
    simp only [jsSplitChar]
    rw [ih (fun x hx => h x (List.mem_cons_of_mem c hx))]
    simp [hc]

/-- A character whose lower-cased form appears in "none" is not
whitespace. -/
theorem not_ws_of_toLower_none (c : Char)
    (h : Char.toLower c ∈ "none".data) : isWS c = false := by
  cases hb : isWS c with
  | false => rfl
  | true =>
    have hcases : c = ' ' ∨ c = '\t' ∨ c = '\n' ∨ c = '\r' ∨
        c = '\x0b' ∨ c = '\x0c' := by
      simpa [isWS, or_assoc] using hb
    rcases hcases with h1 | h1 | h1 | h1 | h1 | h1 <;> subst h1 <;>
      exact absurd h (by decide)

/-- A character whose lower-cased form appears in "none" is not a
comma. -/
theorem ne_comma_of_toLower_none (c : Char)
    (h : Char.toLower c ∈ "none".data) : c ≠ ',' := by
  intro he
  subst he
  exact absurd h (by decide)

/-- Characters of a string land, lower-cased, in its lower-casing. -/
theorem toLower_mem_of (s t : JStr) (h : jsToLower s = t) (c : Char)
    (hc : c ∈ s) : Char.toLower c ∈ t := by
  subst h
  exact List.mem_map_of_mem Char.toLower hc

/-- C2: the products normalizer returns the empty sequence when the
trimmed completion case-insensitively equals "none"; otherwise it returns
the comma-separated, individually trimmed segments that case-insensitively
contain some product-catalog name as a substring, in order and without
deduplication; "none" in any case maps to the empty list, "WAF, Workers"
to that pair in order, and "Foo, R2" to just "R2". -/
theorem processProducts_spec (s : JStr) :
    processProducts s =
      (if jsToLower (jsTrim s) = "none".data then []
       else ((jsSplitChar ',' s).map jsTrim).filter
         (fun p => CLOUDFLARE_PRODUCTS.any fun cp =>
           jsIncl (jsToLower p) (jsToLower cp)))
    ∧ processProducts "none".data = []
    ∧ processProducts "NONE".data = []
    ∧ processProducts "WAF, Workers".data = ["WAF".data, "Workers".data]
    ∧ processProducts "Foo, R2".data = ["R2".data] := by
  refine ⟨?_, by decide, by decide, by decide, by decide⟩
  by_cases h1 : jsToLower s = "none".data
  · have hall : ∀ c ∈ s, isWS c = false := fun c hc =>
      not_ws_of_toLower_none c (toLower_mem_of s _ h1 c hc)
    have ht : jsTrim s = s := jsTrim_eq_self s hall
    unfold processProducts
    rw [if_pos h1, ht, if_pos h1]
  · unfold processProducts
    rw [if_neg h1]
    by_cases h2 : jsToLower (jsTrim s) = "none".data
    · rw [if_pos h2]
      have hnc : ∀ c ∈ s, c ≠ ',' := by
        intro c hc
        rcases mem_jsTrim_or_ws s c hc with hm | hw
        · exact ne_comma_of_toLower_none c (toLower_mem_of _ _ h2 c hm)
        · intro he
          subst he
          exact absurd hw (by decide)
      rw [jsSplitChar_eq_single ',' s hnc]
      have hpred : (CLOUDFLARE_PRODUCTS.any fun cp =>
          jsIncl (jsToLower (jsTrim s)) (jsToLower cp)) = false := by
        rw [h2]
        decide
      simp [List.filter_cons, hpred]
    · rw [if_neg h2]

/-- C3: the issues normalizer returns a single-element sequence holding
the trimmed completion when it exactly equals a taxonomy label and the
fallback "General Question" otherwise, so the element is always a
taxonomy member or the fallback; "Bug Report" maps to itself and
"not a category" to the fallback. -/
theorem processIssues_spec (s : JStr) :
    processIssues s =
      (if jsTrim s ∈ ISSUE_LABELS then [jsTrim s]
       else ["General Question".data])
    ∧ (∃ l, processIssues s = [l] ∧
        (l ∈ ISSUE_LABELS ∨ l = "General Question".data))
    ∧ processIssues "Bug Report".data = ["Bug Report".data]
    ∧ processIssues "not a category".data = ["General Question".data] := by
  have hmem : ((ISSUE_LABELS.any fun label => label == jsTrim s) = true)
      ↔ jsTrim s ∈ ISSUE_LABELS := by
    rw [List.any_eq_true]
    constructor
    · rintro ⟨x, hx, he⟩
      have hxe := eq_of_beq he
      subst hxe
      exact hx
    · intro hx
      exact ⟨jsTrim s, hx, beq_self_eq_true _⟩
  have hmain : processIssues s =
      (if jsTrim s ∈ ISSUE_LABELS then [jsTrim s]
       else ["General Question".data]) := by
    unfold processIssues
    by_cases h : jsTrim s ∈ ISSUE_LABELS
    · rw [if_pos (hmem.mpr h), if_pos h]
    · rw [if_neg (fun hc => h (hmem.mp hc)), if_neg h]
  refine ⟨hmain, ?_, by decide, by decide⟩
  rw [hmain]
  by_cases h : jsTrim s ∈ ISSUE_LABELS
  · exact ⟨jsTrim s, by rw [if_pos h], Or.inl h⟩
  · exact ⟨"General Question".data, by rw [if_neg h], Or.inr rfl⟩

end AnalyzeRoute

namespace AnalyzeRoute

/-- Every issue label maps to itself under the issues normalizer. -/
theorem processIssues_fixed_on_labels :
    ∀ l ∈ ISSUE_LABELS, processIssues l = [l] := by decide

/-- C10: the issues normalizer is idempotent on its own output: whenever
it returns the single-element sequence holding l, applying it to l
returns that same sequence, both when l is a taxonomy label and when l is
the fallback "General Question". -/
theorem processIssues_idempotent (s l : JStr)
    (h : processIssues s = [l]) : processIssues l = [l] := by
  unfold processIssues at h
  split at h
  · next hc =>
    have hmem : jsTrim s ∈ ISSUE_LABELS := by
      rcases List.any_eq_true.mp hc with ⟨x, hx, he⟩
      have hxe := eq_of_beq he
      subst hxe
      exact hx
    have hl : jsTrim s = l := by injection h
    subst hl
    exact processIssues_fixed_on_labels (jsTrim s) hmem
  · have hl : "General Question".data = l := by injection h
    subst hl
    decide

/-- Witness for C10 at a concrete completion with surrounding
whitespace. -/
theorem processIssues_idempotent_witness :
    processIssues " Bug Report ".data = ["Bug Report".data] ∧
    processIssues "Bug Report".data = ["Bug Report".data] :=
  ⟨by decide,
   processIssues_idempotent " Bug Report ".data "Bug Report".data (by decide)⟩

/-- C6: every string in the products sequence of a normalized answer
case-insensitively contains the name of some product-catalog entry, by the
substring-match rule; no invented name outside the catalog survives. -/
theorem products_only_catalog (s p : JStr) (hp : p ∈ processProducts s) :
    ∃ cp ∈ CLOUDFLARE_PRODUCTS, jsIncl (jsToLower p) (jsToLower cp) = true := by
  unfold processProducts at hp
  split at hp
  · exact absurd hp (List.not_mem_nil p)
  · have hpred := (List.mem_filter.mp hp).2
    simpa [List.any_eq_true] using hpred

/-- Witness for C6 at a concrete completion. -/
theorem products_only_catalog_witness :
    "R2".data ∈ processProducts "Foo, R2".data ∧
    ∃ cp ∈ CLOUDFLARE_PRODUCTS,
      jsIncl (jsToLower "R2".data) (jsToLower cp) = true :=
  ⟨by decide, products_only_catalog "Foo, R2".data "R2".data (by decide)⟩

/-- C4: the sentiment lookup lower-cases the (trimmed) completion and
looks it up in the 3-entry table; a key outside positive, negative and
neutral yields no match, and that undefined value is placed, unguarded,
in the sentiment field of the HTTP 200 result. -/
theorem sentiment_lookup_unguarded (env : Env) (t : JSValue)
    (c1 c2 c3 : JStr)
    (hai : env.AI = true) (hgw : env.CLOUDFLARE_GATEWAY_ID ≠ [])
    (ht : truthy t = true)
    (h1 : jsToLower (jsTrim c1) ≠ "positive".data)
    (h2 : jsToLower (jsTrim c1) ≠ "negative".data)
    (h3 : jsToLower (jsTrim c1) ≠ "neutral".data) :
    SENTIMENT_MAP (jsToLower (jsTrim c1)) = none ∧
    (POST env t (.ok c1) (.ok c2) (.ok c3)).fst =
      .okJson { sentiment := none,
                products := processProducts (jsTrim c2),
                issues := processIssues (jsTrim c3) } := by
  have hmap : SENTIMENT_MAP (jsToLower (jsTrim c1)) = none := by
    unfold SENTIMENT_MAP
    rw [if_neg h1, if_neg h2, if_neg h3]
  refine ⟨hmap, ?_⟩
  unfold POST
  rw [if_neg (by simp [hai, hgw]), if_neg (by simp [ht])]
  simp [makeAICall, promiseAll3, hmap]

/-- Witness for C4 at a concrete out-of-grammar completion. -/
theorem sentiment_lookup_unguarded_witness :
    SENTIMENT_MAP (jsToLower (jsTrim "confused".data)) = none ∧
    (POST ⟨true, "gw".data⟩ (.str "hello".data) (.ok "confused".data)
        (.ok "none".data) (.ok "General".data)).fst =
      .okJson { sentiment := none,
                products := processProducts (jsTrim "none".data),
                issues := processIssues (jsTrim "General".data) } :=
  sentiment_lookup_unguarded ⟨true, "gw".data⟩ (.str "hello".data)
    "confused".data "none".data "General".data rfl (by decide) (by decide)
    (by decide) (by decide) (by decide)

/-- C5: for an accepted request, the failure of any one of the three
classification calls makes the whole request fail as a 500 with error
"Failed to analyze text" and a details string; no partial result is
assembled into a success response. -/
theorem inference_failure_is_500 (env : Env) (t : JSValue)
    (o1 o2 o3 : CallOutcome)
    (hai : env.AI = true) (hgw : env.CLOUDFLARE_GATEWAY_ID ≠ [])
    (ht : truthy t = true)
    (hfail : (∃ m, o1 = .err m) ∨ (∃ m, o2 = .err m) ∨ (∃ m, o3 = .err m)) :
    ∃ d, (POST env t o1 o2 o3).fst =
        .errJson 500 "Failed to analyze text".data (some d) ∧
      ∀ r, (POST env t o1 o2 o3).fst ≠ .okJson r := by
  unfold POST
  rw [if_neg (by simp [hai, hgw]), if_neg (by simp [ht])]
  cases o1 <;> cases o2 <;> cases o3 <;>
    simp [makeAICall, promiseAll3] at hfail ⊢

/-- Witness for C5: the product-detection call fails while the other two
succeed, and the result is the 500 error response. -/
theorem inference_failure_is_500_witness :
    ∃ d, (POST ⟨true, "gw".data⟩ (.str "hello".data) (.ok "neutral".data)
        (.err "boom".data) (.ok "General".data)).fst =
        .errJson 500 "Failed to analyze text".data (some d) ∧
      ∀ r, (POST ⟨true, "gw".data⟩ (.str "hello".data) (.ok "neutral".data)
        (.err "boom".data) (.ok "General".data)).fst ≠ .okJson r :=
  inference_failure_is_500 ⟨true, "gw".data⟩ (.str "hello".data)
    (.ok "neutral".data) (.err "boom".data) (.ok "General".data)
    rfl (by decide) (by decide) (Or.inr (Or.inl ⟨"boom".data, rfl⟩))

/-- Counterexample to C1 as stated: a whitespace-only text, a single
space, is not rejected with the 400 validation response, and all three
inference calls are issued. -/
theorem validation_whitespace_cex :
    (POST ⟨true, "gw".data⟩ (.str " ".data) (.ok "neutral".data)
        (.ok "none".data) (.ok "General".data)).fst ≠
      .errJson 400 "Text is required".data none ∧
    (POST ⟨true, "gw".data⟩ (.str " ".data) (.ok "neutral".data)
        (.ok "none".data) (.ok "General".data)).snd.length = 3 := by
  constructor
  · decide
  · rfl

/-- C1 amended: with the environment set, the handler returns the 400
validation response with no inference call issued exactly when the body
field text is falsy in the JavaScript sense (absent, null, false, zero or
the empty string); truthy text, a whitespace-only string included, is
never rejected this way. -/
theorem validation_falsy_iff (env : Env) (t : JSValue)
    (o1 o2 o3 : CallOutcome)
    (hai : env.AI = true) (hgw : env.CLOUDFLARE_GATEWAY_ID ≠ []) :
    ((POST env t o1 o2 o3).fst = .errJson 400 "Text is required".data none ∧
      (POST env t o1 o2 o3).snd = []) ↔ truthy t = false := by
  unfold POST
  rw [if_neg (by simp [hai, hgw])]
  by_cases ht : truthy t = false
  · rw [if_pos ht]
    simp [ht]
  · rw [if_neg ht]
    constructor
    · rintro ⟨-, hsnd⟩
      exfalso
      cases o1 <;> cases o2 <;> cases o3 <;>
        simp [makeAICall, promiseAll3] at hsnd
    · intro hf
      exact absurd hf ht

/-- Witness for the amended C1 at a concrete falsy text, the empty
string. -/
theorem validation_falsy_iff_witness :
    ((POST ⟨true, "gw".data⟩ (.str []) (.ok "a".data) (.ok "b".data)
        (.ok "c".data)).fst = .errJson 400 "Text is required".data none ∧
      (POST ⟨true, "gw".data⟩ (.str []) (.ok "a".data) (.ok "b".data)
        (.ok "c".data)).snd = []) ↔ truthy (.str []) = false :=
  validation_falsy_iff ⟨true, "gw".data⟩ (.str []) (.ok "a".data)
    (.ok "b".data) (.ok "c".data) rfl (by decide)

/-- Counterexample to C7 as stated: with text a space-padded string, each
of the three calls carries the raw text as its user message, which is not
the trimmed text. -/
theorem user_message_untrimmed_cex :
    (POST ⟨true, "gw".data⟩ (.str " hi ".data) (.ok "neutral".data)
        (.ok "none".data) (.ok "General".data)).snd.map IssuedCall.user =
      [.str " hi ".data, .str " hi ".data, .str " hi ".data] ∧
    jsTrim " hi ".data = "hi".data ∧
    JSValue.str " hi ".data ≠ JSValue.str "hi".data := by
  refine ⟨rfl, by decide, by decide⟩

/-- C7 amended: for every request that passes validation, each of the
three inference calls carries as its user-role message the request text
exactly as received, unmodified and in particular untrimmed, identical
across all three calls; the three system prompts are the sentiment,
products and issues prompts in that order. -/
theorem user_message_is_raw_text (env : Env) (t : JSValue)
    (o1 o2 o3 : CallOutcome)
    (hai : env.AI = true) (hgw : env.CLOUDFLARE_GATEWAY_ID ≠ [])
    (ht : truthy t = true) :
    (POST env t o1 o2 o3).snd.map IssuedCall.user = [t, t, t] ∧
    (POST env t o1 o2 o3).snd.map IssuedCall.systemPrompt =
      [PROMPT_sentiment, PROMPT_products, PROMPT_issues] := by
  unfold POST
  rw [if_neg (by simp [hai, hgw]), if_neg (by simp [ht])]
  cases o1 <;> cases o2 <;> cases o3 <;>
    simp [makeAICall, promiseAll3]

/-- Witness for the amended C7 at a concrete padded text. -/
theorem user_message_is_raw_text_witness :
    (POST ⟨true, "gw".data⟩ (.str " hi ".data) (.ok "a".data)
        (.ok "b".data) (.ok "c".data)).snd.map IssuedCall.user =
      [.str " hi ".data, .str " hi ".data, .str " hi ".data] ∧
    (POST ⟨true, "gw".data⟩ (.str " hi ".data) (.ok "a".data)
        (.ok "b".data) (.ok "c".data)).snd.map IssuedCall.systemPrompt =
      [PROMPT_sentiment, PROMPT_products, PROMPT_issues] :=
  user_message_is_raw_text ⟨true, "gw".data⟩ (.str " hi ".data)
    (.ok "a".data) (.ok "b".data) (.ok "c".data) rfl (by decide) (by decide)

/-- C8: the handler is deterministic in the environment, the text and the
three call outcomes: two invocations with equal inputs produce identical
responses and identical issued-call lists. -/
theorem handler_deterministic (env env2 : Env) (t t2 : JSValue)
    (o1 o2 o3 p1 p2 p3 : CallOutcome)
    (henv : env = env2) (ht : t = t2)
    (h1 : o1 = p1) (h2 : o2 = p2) (h3 : o3 = p3) :
    POST env t o1 o2 o3 = POST env2 t2 p1 p2 p3 := by
  subst henv
  subst ht
  subst h1
  subst h2
  subst h3
  rfl

/-- Witness for C8 at one concrete invocation repeated. -/
theorem handler_deterministic_witness :
    POST ⟨true, "gw".data⟩ (.str "hi".data) (.ok "positive".data)
        (.ok "R2".data) (.ok "General".data) =
      POST ⟨true, "gw".data⟩ (.str "hi".data) (.ok "positive".data)
        (.ok "R2".data) (.ok "General".data) :=
  handler_deterministic ⟨true, "gw".data⟩ ⟨true, "gw".data⟩
    (.str "hi".data) (.str "hi".data) (.ok "positive".data)
    (.ok "R2".data) (.ok "General".data) (.ok "positive".data)
    (.ok "R2".data) (.ok "General".data) rfl rfl rfl rfl rfl

end AnalyzeRoute
